import Mathlib

/-!
Verification of the MediTrack conversation core: the safety keyword filter,
the symptom-detection and question-queue logic, the detail log, and the
per-turn conversation handler, shallowly embedded from agent.py and app.py.
Python strings become Lean strings, Python lowercasing becomes a character
map, substring containment becomes list containment on character data, the
Python dict of details becomes an association list in insertion order, and
the external LLM call becomes a function of an abstract call outcome.
-/

set_option maxHeartbeats 1000000

/-- Embedding of the Python string method lower: lowercase every character. -/
def lower (s : String) : String := ⟨s.data.map Char.toLower⟩

/-- Embedding of the Python substring test needle in hay. -/
def containsSub (hay needle : String) : Bool := decide (needle.data <:+: hay.data)

/-- The CRITICAL_SYMPTOMS set from agent.py, as a list of its members. -/
def CRITICAL_SYMPTOMS : List String :=
  ["chest pain", "difficulty breathing", "trouble breathing", "can\x27t breathe",
   "severe pain", "slurred speech", "numbness", "face drooping",
   "unconscious", "loss of consciousness", "severe bleeding", "uncontrolled bleeding"]

/-- The SYMPTOM_QUESTIONS dict from agent.py, in insertion order. -/
def SYMPTOM_QUESTIONS : List (String × List String) :=
  [("headache", ["On a scale of 1 to 10, how severe is it?",
                 "Where is the pain located?"]),
   ("fever", ["Have you measured your temperature? If so, what is it?",
              "How long have you felt feverish?"]),
   ("cough", ["Is it a dry cough, or are you coughing anything up?",
              "How frequently are you coughing?"])]

/-- Dict lookup SYMPTOM_QUESTIONS[s], defaulting to the empty list off the keys. -/
def questionsOf (s : String) : List String := (SYMPTOM_QUESTIONS.lookup s).getD []

/-- check_for_critical_symptoms from agent.py: any critical keyword occurs in the
lowercased text. -/
def check_for_critical_symptoms (text : String) : Bool :=
  CRITICAL_SYMPTOMS.any (fun keyword => containsSub (lower text) keyword)

/-- The hard-coded safety response from agent.py. -/
def get_critical_symptom_response : String :=
  "**This sounds potentially serious.** Based on your description, it is highly recommended that you **contact a medical professional or emergency services immediately.** This chat will now end to ensure your safety."

/-- The log_data dict of agent.py: initial symptoms plus the per-symptom
detail records, an association list in insertion order. -/
structure LogData where
  initial_symptoms : List String
  details : List (String × List (String × String))

/-- The mutable agent fields of agent.py that the conversation touches. -/
structure AgentState where
  log_data : LogData
  symptoms_to_query : List (String × String)
  current_question_context : Option (String × String)

/-- log_initial_symptoms from agent.py: detect catalog keys occurring in the
lowercased text, in catalog order, then build the question queue. -/
def log_initial_symptoms (st : AgentState) (text : String) : AgentState :=
  let detected := (SYMPTOM_QUESTIONS.map Prod.fst).filter
    (fun s => containsSub (lower text) s)
  { st with
    log_data := { st.log_data with initial_symptoms := detected },
    symptoms_to_query := detected.flatMap (fun s => (questionsOf s).map (fun q => (s, q))) }

/-- ask_next_question from agent.py: pop the front of the queue, remember it as
the current question context, and return the question; on an empty queue return
none and leave everything unchanged. -/
def ask_next_question (st : AgentState) : Option String × AgentState :=
  match st.symptoms_to_query with
  | [] => (none, st)
  | (symptom, question) :: rest =>
    (some question,
     { st with symptoms_to_query := rest,
               current_question_context := some (symptom, question) })

/-- The dict update of log_detail: append the record to the entry of the given
symptom, creating that entry at the end when it is absent. -/
def appendDetail (details : List (String × List (String × String)))
    (symptom : String) (entry : String × String) :
    List (String × List (String × String)) :=
  match details with
  | [] => [(symptom, [entry])]
  | (k, v) :: rest =>
    if k = symptom then (k, v ++ [entry]) :: rest
    else (k, v) :: appendDetail rest symptom entry

/-- log_detail from agent.py: with a current question context, record the
answer under its symptom; without one, do nothing. -/
def log_detail (st : AgentState) (answer : String) : AgentState :=
  match st.current_question_context with
  | none => st
  | some (symptom, question) =>
    { st with log_data :=
        { st.log_data with
          details := appendDetail st.log_data.details symptom (question, answer) } }

/-- Outcome of one external LLM call: usable text, a response without a text
attribute, or a raised exception carrying a message. -/
inductive GeminiResult where
  | ok (text : String)
  | noText
  | failure (message : String)

/-- The call boundary of agent.py: unwrap usable text, and turn the two failure
shapes into their fixed fallback strings. -/
def call_gemini (result : GeminiResult) : String :=
  match result with
  | .ok t => t
  | .noText => "The model could not generate a response for this query."
  | .failure _ => "An error occurred while trying to generate a response."

/-- The Python repr of a list of strings, as interpolated by an f-string. -/
def pyReprStrList (xs : List String) : String :=
  "[" ++ String.intercalate ", " (xs.map (fun s => "\x27" ++ s ++ "\x27")) ++ "]"

/-- The prompt built by generate_advice in agent.py: fixed text around the
interpolated initial symptom list. -/
def generate_advice_prompt (log : LogData) : String :=
  "\n        Based on the following symptoms, provide some general, safe, non-prescriptive wellness advice.\n        Focus only on common sense actions like rest, hydration, and monitoring symptoms.\n        Explicitly state that this is not medical advice and a doctor should be consulted for medical issues.\n        NEVER provide a diagnosis or recommend specific medication.\n\n        Symptoms: "
  ++ pyReprStrList log.initial_symptoms ++ "\n        "

/-- The session state of app.py: the stage string, the agent state, and the
assistant side of the message log. -/
structure AppState where
  stage : String
  agent : AgentState
  messages : List String

/-- The clarification prompt of the greeting branch in app.py. -/
def clarification_prompt : String :=
  "I see. Could you please tell me more? Mention specific symptoms like \x27headache\x27, \x27fever\x27, etc., so I can ask relevant follow-up questions."

/-- Header over the summary section in app.py. -/
def summary_header : String := "### Your Health Log Summary"

/-- Header over the advice section in app.py. -/
def advice_header : String := "### General Wellness Advice"

/-- Closing message of the final collecting turn in app.py. -/
def closing_message : String :=
  "Your session is complete. You can copy the summary above for your records. Stay well!"

/-- Fixed reply of the done stage in app.py. -/
def done_message : String :=
  "This session has concluded. To start a new health log, please click the button below."

/-- handle_chat_input from app.py, as one functional turn: the two GeminiResult
arguments are the outcomes of the summary call and the advice call, consulted
only when the turn reaches the summary transition. -/
def handle_chat_input (st : AppState) (user_input : String)
    (summaryRes adviceRes : GeminiResult) : AppState :=
  if user_input = "" then st
  else if check_for_critical_symptoms user_input then
    { st with messages := st.messages ++ [get_critical_symptom_response],
              stage := "done" }
  else if st.stage = "greeting" then
    let agent1 := log_initial_symptoms st.agent user_input
    match ask_next_question agent1 with
    | (some q, agent2) =>
      { st with agent := agent2, stage := "collecting_details",
                messages := st.messages ++ [q] }
    | (none, agent2) =>
      { st with agent := agent2, messages := st.messages ++ [clarification_prompt] }
  else if st.stage = "collecting_details" then
    let agent1 := log_detail st.agent user_input
    match ask_next_question agent1 with
    | (some q, agent2) => { st with agent := agent2, messages := st.messages ++ [q] }
    | (none, agent2) =>
      { st with agent := agent2, stage := "done",
                messages := st.messages ++
                  [summary_header ++ "\n" ++ call_gemini summaryRes,
                   advice_header ++ "\n" ++ call_gemini adviceRes,
                   closing_message] }
  else if st.stage = "done" then
    { st with messages := st.messages ++ [done_message] }
  else st

/-- The detail records stored for a symptom, empty when the key is absent. -/
def detailsFor (st : AgentState) (s : String) : List (String × String) :=
  ((st.log_data.details).lookup s).getD []

example : check_for_critical_symptoms "I have Chest Pain" = true := by decide
example : check_for_critical_symptoms "I have a headache" = false := by decide
example : (log_initial_symptoms ⟨⟨[], []⟩, [], none⟩ "I have a headache and a fever").log_data.initial_symptoms = ["headache", "fever"] := by decide

/-! ### Helper lemmas -/

lemma infix_map_toLower {s t : List Char} (h : s <:+: t) :
    s.map Char.toLower <:+: t.map Char.toLower := by
  obtain ⟨u, v, huv⟩ := h
  exact ⟨u.map Char.toLower, v.map Char.toLower, by rw [← huv]; simp⟩

lemma log_detail_none {st : AgentState} (h : st.current_question_context = none)
    (a : String) : log_detail st a = st := by
  simp [log_detail, h]

lemma log_detail_some {st : AgentState} {sym q : String}
    (h : st.current_question_context = some (sym, q)) (a : String) :
    log_detail st a =
      { st with log_data :=
          { st.log_data with
            details := appendDetail st.log_data.details sym (q, a) } } := by
  simp [log_detail, h]

lemma log_detail_queue (st : AgentState) (a : String) :
    (log_detail st a).symptoms_to_query = st.symptoms_to_query := by
  cases h : st.current_question_context with
  | none => rw [log_detail_none h]
  | some p => obtain ⟨sym, q⟩ := p; rw [log_detail_some h]

lemma ask_next_question_nil {st : AgentState} (h : st.symptoms_to_query = []) :
    ask_next_question st = (none, st) := by
  unfold ask_next_question
  rw [h]

lemma lookup_appendDetail_self (d : List (String × List (String × String)))
    (sym : String) (e : String × String) :
    ((appendDetail d sym e).lookup sym).getD [] = (d.lookup sym).getD [] ++ [e] := by
  induction d with
  | nil => simp [appendDetail, List.lookup]
  | cons p rest ih =>
    obtain ⟨k, v⟩ := p
    by_cases hk : k = sym
    · subst hk
      simp [appendDetail, List.lookup]
    · have hb : (sym == k) = false := by
        simp [beq_eq_false_iff_ne]
        exact fun he => hk he.symm
      simp [appendDetail, hk, List.lookup, hb, ih]

lemma lookup_appendDetail_ne (d : List (String × List (String × String)))
    {sym s : String} (hs : s ≠ sym) (e : String × String) :
    (appendDetail d sym e).lookup s = d.lookup s := by
  induction d with
  | nil =>
    have hb : (s == sym) = false := by simp [beq_eq_false_iff_ne]; exact hs
    simp [appendDetail, List.lookup, hb]
  | cons p rest ih =>
    obtain ⟨k, v⟩ := p
    by_cases hk : k = sym
    · subst hk
      have hb : (s == k) = false := by simp [beq_eq_false_iff_ne]; exact hs
      simp [appendDetail, List.lookup, hb]
    · simp only [appendDetail, if_neg hk]
      cases hb : (s == k) with
      | true => simp [List.lookup, hb]
      | false => simp [List.lookup, hb, ih]

/-! ### Claims -/

/-- Claim C1: the safety scan returns true exactly when the lowercased text
contains a critical keyword, and any occurrence of a keyword in any letter
case makes it return true. -/
theorem C1_scan_characterization (text : String) :
    (check_for_critical_symptoms text = true ↔
      ∃ k ∈ CRITICAL_SYMPTOMS, k.data <:+: (lower text).data) ∧
    (∀ k ∈ CRITICAL_SYMPTOMS, ∀ s : String,
      s.data <:+: text.data → lower s = k →
      check_for_critical_symptoms text = true) := by
  constructor
  · simp [check_for_critical_symptoms, containsSub, List.any_eq_true]
  · intro k hk s hs hlow
    have h2 : (lower s).data <:+: (lower text).data := infix_map_toLower hs
    rw [hlow] at h2
    simp only [check_for_critical_symptoms, containsSub, List.any_eq_true,
      decide_eq_true_eq]
    exact ⟨k, hk, h2⟩

/-- Witness for C1 at a mixed-case occurrence of a critical keyword. -/
theorem C1_witness :
    check_for_critical_symptoms "I suddenly have Chest Pain" = true :=
  (C1_scan_characterization "I suddenly have Chest Pain").2 "chest pain"
    (by decide) "Chest Pain" (by decide) (by decide)

/-- The freshly initialized agent state of agent.py. -/
def agent0 : AgentState :=
  { log_data := { initial_symptoms := [], details := [] },
    symptoms_to_query := [], current_question_context := none }

/-- An agent state holding a pending question context on headache. -/
def agentH : AgentState :=
  { log_data := { initial_symptoms := ["headache"], details := [] },
    symptoms_to_query := [("headache", "Where is the pain located?")],
    current_question_context :=
      some ("headache", "On a scale of 1 to 10, how severe is it?") }

/-- An agent state whose question queue has just been exhausted. -/
def agentC : AgentState :=
  { log_data := { initial_symptoms := ["headache"],
                  details := [("headache",
                    [("On a scale of 1 to 10, how severe is it?", "It is a 7")])] },
    symptoms_to_query := [],
    current_question_context := some ("headache", "Where is the pain located?") }

/-- Claim C2: a turn whose text triggers the safety filter only appends the
fixed escalation message and forces the stage to done, leaving the agent state
untouched; and a session whose stage is done never leaves done. -/
theorem C2_escalation_is_final :
    (∀ (st : AppState) (input : String) (sr ar : GeminiResult),
        check_for_critical_symptoms input = true →
        handle_chat_input st input sr ar =
          { st with messages := st.messages ++ [get_critical_symptom_response],
                    stage := "done" }) ∧
    (∀ (st : AppState) (input : String) (sr ar : GeminiResult),
        st.stage = "done" →
        (handle_chat_input st input sr ar).stage = "done") := by
  constructor
  · intro st input sr ar hcrit
    have hne : ¬input = "" := by
      intro he
      rw [he] at hcrit
      exact absurd hcrit (by decide)
    unfold handle_chat_input
    rw [if_neg hne, if_pos hcrit]
  · intro st input sr ar hdone
    unfold handle_chat_input
    by_cases hne : input = ""
    · rw [if_pos hne]
      exact hdone
    · rw [if_neg hne]
      by_cases hcrit : check_for_critical_symptoms input = true
      · rw [if_pos hcrit]
      · rw [if_neg hcrit, if_neg (by rw [hdone]; decide),
          if_neg (by rw [hdone]; decide), if_pos hdone]
        exact hdone

/-- Witness for C2: a critical message in the greeting stage escalates, and a
done session stays done. -/
theorem C2_witness :
    handle_chat_input { stage := "greeting", agent := agent0, messages := [] }
        "there is severe pain in my arm" (.ok "s") (.ok "a") =
      { stage := "done", agent := agent0,
        messages := [get_critical_symptom_response] } ∧
    (handle_chat_input { stage := "done", agent := agent0, messages := [] }
        "hello again" (.ok "s") (.ok "a")).stage = "done" := by
  constructor
  · have h := C2_escalation_is_final.1
      { stage := "greeting", agent := agent0, messages := [] }
      "there is severe pain in my arm" (.ok "s") (.ok "a") (by decide)
    simpa using h
  · exact C2_escalation_is_final.2
      { stage := "done", agent := agent0, messages := [] }
      "hello again" (.ok "s") (.ok "a") rfl

/-- Claim C3: both advisor failure shapes are replaced at the call boundary by
their fixed fallback strings, and a final collecting turn still reaches the
done stage whatever the two call outcomes are. -/
theorem C3_provider_failure_contained :
    (∀ msg : String, call_gemini (.failure msg) =
      "An error occurred while trying to generate a response.") ∧
    (call_gemini .noText =
      "The model could not generate a response for this query.") ∧
    (∀ (st : AppState) (input : String) (sr ar : GeminiResult),
        st.stage = "collecting_details" →
        st.agent.symptoms_to_query = [] →
        input ≠ "" →
        (handle_chat_input st input sr ar).stage = "done") := by
  refine ⟨fun _ => by rfl, by rfl, ?_⟩
  intro st input sr ar hstage hq hne
  unfold handle_chat_input
  rw [if_neg hne]
  by_cases hcrit : check_for_critical_symptoms input = true
  · rw [if_pos hcrit]
  · rw [if_neg hcrit, if_neg (by rw [hstage]; decide), if_pos hstage]
    have hask : ask_next_question (log_detail st.agent input) =
        (none, log_detail st.agent input) :=
      ask_next_question_nil (by rw [log_detail_queue]; exact hq)
    simp only [hask]

/-- Witness for C3: a raised exception and a blocked response produce the two
fallback strings, and a final collecting turn under those failures still ends
in the done stage. -/
theorem C3_witness :
    call_gemini (.failure "quota exceeded") =
      "An error occurred while trying to generate a response." ∧
    call_gemini .noText =
      "The model could not generate a response for this query." ∧
    (handle_chat_input
        { stage := "collecting_details", agent := agentC, messages := [] }
        "It is behind my eyes" (.failure "quota exceeded") .noText).stage =
      "done" :=
  ⟨C3_provider_failure_contained.1 "quota exceeded",
   C3_provider_failure_contained.2.1,
   C3_provider_failure_contained.2.2
     { stage := "collecting_details", agent := agentC, messages := [] }
     "It is behind my eyes" (.failure "quota exceeded") .noText
     rfl rfl (by decide)⟩

/-- Claim C4: symptom detection collects exactly the catalog keys occurring in
the lowercased text, each once, in catalog order, and the question queue is the
flattening of their catalog questions; the example greeting detects headache
and fever and queues four questions. -/
theorem C4_symptom_detection (st : AgentState) (text : String) :
    (∀ s : String,
      s ∈ (log_initial_symptoms st text).log_data.initial_symptoms ↔
        s ∈ SYMPTOM_QUESTIONS.map Prod.fst ∧ s.data <:+: (lower text).data) ∧
    (log_initial_symptoms st text).log_data.initial_symptoms =
      (SYMPTOM_QUESTIONS.map Prod.fst).filter
        (fun s => decide (s.data <:+: (lower text).data)) ∧
    (log_initial_symptoms st text).log_data.initial_symptoms.Nodup ∧
    (log_initial_symptoms st text).symptoms_to_query =
      (log_initial_symptoms st text).log_data.initial_symptoms.flatMap
        (fun s => (questionsOf s).map (fun q => (s, q))) ∧
    (log_initial_symptoms st "I have a headache and a fever").log_data.initial_symptoms =
      ["headache", "fever"] ∧
    (log_initial_symptoms st "I have a headache and a fever").symptoms_to_query.length = 4 := by
  refine ⟨?_, rfl, ?_, rfl, by rfl, by rfl⟩
  · intro s
    simp [log_initial_symptoms, containsSub, List.mem_filter]
  · exact List.Nodup.filter _ (by decide)

/-- One full user turn of app.py under the Streamlit execution model: every
interaction reruns the script, which constructs a fresh MediTrackAgent; its
init reloads log_data and symptoms_to_query from the session but resets the
instance field current_question_context to none, and only then does
handle_chat_input run. -/
def streamlit_turn (st : AppState) (user_input : String)
    (summaryRes adviceRes : GeminiResult) : AppState :=
  handle_chat_input
    { st with agent := { st.agent with current_question_context := none } }
    user_input summaryRes adviceRes

lemma ask_next_question_log_data (A : AgentState) :
    ((ask_next_question A).2).log_data = A.log_data := by
  rcases hq : A.symptoms_to_query with _ | ⟨⟨s, q⟩, rest⟩ <;>
    simp [ask_next_question, hq]

lemma ask_snd_log_data {A a2 : AgentState} {oq : Option String}
    (h : ask_next_question A = (oq, a2)) : a2.log_data = A.log_data := by
  have h2 := congrArg Prod.snd h
  simp only at h2
  rw [← h2, ask_next_question_log_data]

lemma handle_details_constant (st : AppState) (input : String)
    (sr ar : GeminiResult)
    (hctx : st.agent.current_question_context = none) :
    (handle_chat_input st input sr ar).agent.log_data.details =
      st.agent.log_data.details := by
  unfold handle_chat_input
  by_cases hne : input = ""
  · rw [if_pos hne]
  · rw [if_neg hne]
    by_cases hcrit : check_for_critical_symptoms input = true
    · rw [if_pos hcrit]
    · rw [if_neg hcrit]
      by_cases hg : st.stage = "greeting"
      · rw [if_pos hg]
        rcases hask : ask_next_question (log_initial_symptoms st.agent input)
          with ⟨_ | q, a2⟩ <;> simp only [hask] <;>
          rw [show a2.log_data = (log_initial_symptoms st.agent input).log_data
            from ask_snd_log_data hask] <;> rfl
      · rw [if_neg hg]
        by_cases hc : st.stage = "collecting_details"
        · rw [if_pos hc]
          rcases hask : ask_next_question (log_detail st.agent input)
            with ⟨_ | q, a2⟩ <;> simp only [hask] <;>
            rw [show a2.log_data = (log_detail st.agent input).log_data
              from ask_snd_log_data hask, log_detail_none hctx]
        · rw [if_neg hc]
          by_cases hd : st.stage = "done"
          · rw [if_pos hd]
          · rw [if_neg hd]

/-- Claim C5 examined on the program as it actually runs: because the script
rerun resets current_question_context before handle_chat_input ever executes,
log_detail always takes its skip branch, so no turn of any kind ever changes
HealthLog.details; in the concrete session that reports a headache and then
answers the severity question, the answer is asked for yet never recorded. -/
theorem C5_details_never_logged :
    (∀ (st : AppState) (input : String) (sr ar : GeminiResult),
        (streamlit_turn st input sr ar).agent.log_data.details =
          st.agent.log_data.details) ∧
    (streamlit_turn { stage := "greeting", agent := agent0, messages := [] }
        "I have a headache" (.ok "s") (.ok "a")).stage = "collecting_details" ∧
    (streamlit_turn { stage := "greeting", agent := agent0, messages := [] }
        "I have a headache" (.ok "s") (.ok "a")).messages =
      ["On a scale of 1 to 10, how severe is it?"] ∧
    (streamlit_turn
        (streamlit_turn { stage := "greeting", agent := agent0, messages := [] }
          "I have a headache" (.ok "s") (.ok "a"))
        "It is a 7" (.ok "s") (.ok "a")).agent.log_data.details = [] := by
  refine ⟨?_, by decide, by decide, by decide⟩
  intro st input sr ar
  exact handle_details_constant _ input sr ar rfl

lemma log_initial_symptoms_nil {text : String}
    (hnosym : ∀ s ∈ SYMPTOM_QUESTIONS.map Prod.fst, ¬ s.data <:+: (lower text).data)
    (ag : AgentState) :
    (log_initial_symptoms ag text).log_data.initial_symptoms = [] ∧
    (log_initial_symptoms ag text).symptoms_to_query = [] := by
  have hdet : (SYMPTOM_QUESTIONS.map Prod.fst).filter
      (fun s => containsSub (lower text) s) = [] := by
    rw [List.filter_eq_nil_iff]
    intro a ha
    simp only [containsSub, decide_eq_true_eq]
    exact hnosym a ha
  constructor
  · simp [log_initial_symptoms, hdet]
  · simp [log_initial_symptoms, hdet]

lemma greeting_no_symptom_turn (st : AppState) (input : String)
    (sr ar : GeminiResult)
    (hstage : st.stage = "greeting") (hne : input ≠ "")
    (hcrit : check_for_critical_symptoms input = false)
    (hnosym : ∀ s ∈ SYMPTOM_QUESTIONS.map Prod.fst, ¬ s.data <:+: (lower input).data) :
    handle_chat_input st input sr ar =
      { st with agent := log_initial_symptoms st.agent input,
                messages := st.messages ++ [clarification_prompt] } := by
  unfold handle_chat_input
  rw [if_neg hne, if_neg (by rw [hcrit]; decide), if_pos hstage]
  have hask : ask_next_question (log_initial_symptoms st.agent input) =
      (none, log_initial_symptoms st.agent input) :=
    ask_next_question_nil (log_initial_symptoms_nil hnosym st.agent).2
  simp only [hask]

/-- Claim C6: the collecting turn that exhausts the queue ends with stage done
and appends, in order, the summary section, the advice section, and the
closing message, the agent state having only absorbed the last answer. -/
theorem C6_final_collecting_turn (st : AppState) (input : String)
    (sr ar : GeminiResult)
    (hstage : st.stage = "collecting_details")
    (hq : st.agent.symptoms_to_query = [])
    (hne : input ≠ "")
    (hcrit : check_for_critical_symptoms input = false) :
    handle_chat_input st input sr ar =
      { st with agent := log_detail st.agent input, stage := "done",
                messages := st.messages ++
                  [summary_header ++ "\n" ++ call_gemini sr,
                   advice_header ++ "\n" ++ call_gemini ar,
                   closing_message] } := by
  unfold handle_chat_input
  rw [if_neg hne, if_neg (by rw [hcrit]; decide),
    if_neg (by rw [hstage]; decide), if_pos hstage]
  have hask : ask_next_question (log_detail st.agent input) =
      (none, log_detail st.agent input) :=
    ask_next_question_nil (by rw [log_detail_queue]; exact hq)
  simp only [hask]

/-- Witness for C6: the last queued headache question was pending, the user
answers, and the turn emits summary, advice and closing while reaching done. -/
theorem C6_witness :
    handle_chat_input
        { stage := "collecting_details", agent := agentC, messages := [] }
        "It is dull" (.ok "SUMMARY") (.ok "ADVICE") =
      { stage := "done", agent := log_detail agentC "It is dull",
        messages := [summary_header ++ "\n" ++ "SUMMARY",
                     advice_header ++ "\n" ++ "ADVICE",
                     closing_message] } := by
  have h := C6_final_collecting_turn
    { stage := "collecting_details", agent := agentC, messages := [] }
    "It is dull" (.ok "SUMMARY") (.ok "ADVICE") rfl rfl (by decide) (by decide)
  simpa using h

/-- Claim C7: the advice prompt is a function of the initial symptom list
alone, so two logs agreeing on it produce the identical prompt whatever their
per-question answers are. -/
theorem C7_advice_ignores_details (l1 l2 : LogData)
    (h : l1.initial_symptoms = l2.initial_symptoms) :
    generate_advice_prompt l1 = generate_advice_prompt l2 := by
  simp [generate_advice_prompt, h]

/-- Witness for C7: same initial symptoms, one log empty and one log holding a
recorded answer, identical advice prompt. -/
theorem C7_witness :
    generate_advice_prompt { initial_symptoms := ["headache"], details := [] } =
      generate_advice_prompt
        { initial_symptoms := ["headache"],
          details := [("headache",
            [("Where is the pain located?", "Behind my eyes")])] } :=
  C7_advice_ignores_details _ _ rfl

/-- Claim C8: a greeting turn naming no catalog symptom and no critical
keyword leaves the stage at greeting, leaves the question queue empty, and
emits only the fixed clarification prompt. -/
theorem C8_clarification_turn (st : AppState) (input : String)
    (sr ar : GeminiResult)
    (hstage : st.stage = "greeting") (hne : input ≠ "")
    (hcrit : check_for_critical_symptoms input = false)
    (hnosym : ∀ s ∈ SYMPTOM_QUESTIONS.map Prod.fst, ¬ s.data <:+: (lower input).data) :
    (handle_chat_input st input sr ar).stage = "greeting" ∧
    (handle_chat_input st input sr ar).agent.symptoms_to_query = [] ∧
    (handle_chat_input st input sr ar).messages =
      st.messages ++ [clarification_prompt] := by
  rw [greeting_no_symptom_turn st input sr ar hstage hne hcrit hnosym]
  exact ⟨hstage, (log_initial_symptoms_nil hnosym st.agent).2, rfl⟩

/-- Witness for C8 on an input naming nothing the catalog knows. -/
theorem C8_witness :
    (handle_chat_input { stage := "greeting", agent := agent0, messages := [] }
        "I feel strange today" (.ok "s") (.ok "a")).stage = "greeting" ∧
    (handle_chat_input { stage := "greeting", agent := agent0, messages := [] }
        "I feel strange today" (.ok "s") (.ok "a")).agent.symptoms_to_query = [] ∧
    (handle_chat_input { stage := "greeting", agent := agent0, messages := [] }
        "I feel strange today" (.ok "s") (.ok "a")).messages =
      [] ++ [clarification_prompt] :=
  C8_clarification_turn
    { stage := "greeting", agent := agent0, messages := [] }
    "I feel strange today" (.ok "s") (.ok "a")
    rfl (by decide) (by decide) (by decide)

/-- Claim C9: detection replaces the session record, computing the symptom
list and the queue from the current text alone, so a clarification turn wipes
symptoms detected on an earlier greeting turn. -/
theorem C9_detection_replaces :
    (∀ (st1 st2 : AgentState) (text : String),
        (log_initial_symptoms st1 text).log_data.initial_symptoms =
          (log_initial_symptoms st2 text).log_data.initial_symptoms ∧
        (log_initial_symptoms st1 text).symptoms_to_query =
          (log_initial_symptoms st2 text).symptoms_to_query) ∧
    (∀ (st : AppState) (input : String) (sr ar : GeminiResult),
        st.stage = "greeting" → input ≠ "" →
        check_for_critical_symptoms input = false →
        (∀ s ∈ SYMPTOM_QUESTIONS.map Prod.fst, ¬ s.data <:+: (lower input).data) →
        (handle_chat_input st input sr ar).agent.log_data.initial_symptoms = [] ∧
        (handle_chat_input st input sr ar).agent.symptoms_to_query = []) := by
  constructor
  · intro st1 st2 text
    exact ⟨rfl, rfl⟩
  · intro st input sr ar hstage hne hcrit hnosym
    rw [greeting_no_symptom_turn st input sr ar hstage hne hcrit hnosym]
    exact log_initial_symptoms_nil hnosym st.agent

/-- Witness for C9: an agent already holding headache data detects the same
as a fresh agent, and a clarification turn leaves no earlier symptom behind. -/
theorem C9_witness :
    ((log_initial_symptoms agentH "nothing specific").log_data.initial_symptoms =
      (log_initial_symptoms agent0 "nothing specific").log_data.initial_symptoms ∧
     (log_initial_symptoms agentH "nothing specific").symptoms_to_query =
      (log_initial_symptoms agent0 "nothing specific").symptoms_to_query) ∧
    ((handle_chat_input { stage := "greeting", agent := agentH, messages := [] }
        "none of those" (.ok "s") (.ok "a")).agent.log_data.initial_symptoms = [] ∧
     (handle_chat_input { stage := "greeting", agent := agentH, messages := [] }
        "none of those" (.ok "s") (.ok "a")).agent.symptoms_to_query = []) :=
  ⟨C9_detection_replaces.1 agentH agent0 "nothing specific",
   C9_detection_replaces.2
     { stage := "greeting", agent := agentH, messages := [] }
     "none of those" (.ok "s") (.ok "a")
     rfl (by decide) (by decide) (by decide)⟩

/-- Claim C10: with a pending question context, logging a detail only appends
one record under the context symptom; the symptom list, the queue, the
context, and every other symptom entry are untouched. -/
theorem C10_log_detail_frame (st : AgentState) (answer sym q : String)
    (h : st.current_question_context = some (sym, q)) :
    (log_detail st answer).log_data.initial_symptoms =
      st.log_data.initial_symptoms ∧
    (log_detail st answer).symptoms_to_query = st.symptoms_to_query ∧
    (log_detail st answer).current_question_context =
      st.current_question_context ∧
    (∀ s : String, s ≠ sym →
      detailsFor (log_detail st answer) s = detailsFor st s) ∧
    detailsFor (log_detail st answer) sym =
      detailsFor st sym ++ [(q, answer)] := by
  rw [log_detail_some h]
  refine ⟨rfl, rfl, rfl, ?_, ?_⟩
  · intro s hs
    simp [detailsFor, lookup_appendDetail_ne _ hs]
  · simp [detailsFor, lookup_appendDetail_self]

/-- Witness for C10: logging the headache answer leaves everything but the
headache entry unchanged and appends exactly one record there. -/
theorem C10_witness :
    (log_detail agentH "It is a 7").log_data.initial_symptoms =
      agentH.log_data.initial_symptoms ∧
    (log_detail agentH "It is a 7").symptoms_to_query =
      agentH.symptoms_to_query ∧
    (log_detail agentH "It is a 7").current_question_context =
      agentH.current_question_context ∧
    detailsFor (log_detail agentH "It is a 7") "fever" =
      detailsFor agentH "fever" ∧
    detailsFor (log_detail agentH "It is a 7") "headache" =
      detailsFor agentH "headache" ++
        [("On a scale of 1 to 10, how severe is it?", "It is a 7")] := by
  have h := C10_log_detail_frame agentH "It is a 7" "headache"
    "On a scale of 1 to 10, how severe is it?" rfl
  exact ⟨h.1, h.2.1, h.2.2.1, h.2.2.2.1 "fever" (by decide), h.2.2.2.2⟩
